import Mathlib

/-!
Verification development for the folder-size monitoring server (server.js).

The server periodically runs `calculateFolderSize`: it discovers the
appliance API routes (`getApiInfo`), logs in (`loginDsm`), starts a remote
DirSize task (`startFolderSizeCalculation`), polls its status every 30
seconds (`getFolderSizeStatus`), and on completion publishes a measurement
into the process-wide `folderSizeData`, stops the task and logs out.
A read-only HTTP endpoint serves `folderSizeData` as JSON.

We embed the run as a deterministic function of an oracle script: a list
whose n-th element answers the n-th HTTP request the run issues.  A `none`
entry (and an exhausted script) models a transport-level exception thrown
by the request (timeout, network drop).  The run threads an explicit state
holding the remaining script, the trace of requests issued so far, and the
cached `folderSizeData`.  Exceptions are modelled explicitly in the result
type so that the two `try/catch` blocks of the source can be rendered
faithfully.  The `while (true)` polling loop and the recursive self-restart
are rendered with a fuel parameter.
-/

namespace MomsStorage

/-- Kinds of HTTP requests the server issues to the appliance, in the order
they appear in server.js: route discovery query, DSM login, DirSize start,
DirSize status poll, DirSize stop, DSM logout. -/
inductive Call where
  | query
  | login
  | start
  | status
  | stop
  | logout
deriving DecidableEq, Repr

/-- The `data` object of a DirSize status response: the `finished` flag
(line 205) and the `total_size` field (line 212).  JS numbers are modelled
as rationals. -/
structure StatusData where
  finished : Bool
  total_size : ℚ
deriving DecidableEq, Repr

/-- An appliance response body, abstracting exactly the fields server.js
inspects.  `success` is the application-level flag checked at lines 173,
183, 193, 205.  `apiPaths` records whether `data` carries the two API route
entries read at lines 178-179 (reading them with `data` absent throws a
TypeError).  `sid` records whether `data.sid` is present and truthy
(line 59).  `startHasData` records whether a start response carries a
`data` object (reading `data.taskid` with `data` absent at line 198 throws
a TypeError).  `statusData` is the `data` object of a status response
(reading `data.finished` with `data` absent at line 205 throws a
TypeError).  Fields irrelevant to a given request kind are simply unread. -/
structure WireResp where
  success : Bool := true
  apiPaths : Bool := true
  sid : Bool := true
  startHasData : Bool := true
  statusData : Option StatusData := none
deriving DecidableEq, Repr

/-- The oracle script: the n-th element answers the n-th HTTP request of
the run; `none` (and an exhausted script) models a transport-level
exception raised by that request. -/
abbrev Env := List (Option WireResp)

/-- A published measurement: the shape of the object assigned to
`folderSizeData` at lines 215-219. -/
structure Meas where
  current_size_bytes : ℚ
  max_size_bytes : ℚ
  used_percentage : ℚ
deriving DecidableEq, Repr

/-- The `MAX_SIZE_TB` constant, line 13. -/
def MAX_SIZE_TB : ℚ := 6

/-- The `MAX_SIZE_BYTES` constant, line 14: `MAX_SIZE_TB * 1024 ** 4`. -/
def MAX_SIZE_BYTES : ℚ := MAX_SIZE_TB * 1024 ^ 4

/-- Initial value of `folderSizeData`, line 16: the empty object,
modelled as `none`. -/
def initialFolderSizeData : Option Meas := none

/-- State threaded through a run: the remaining oracle script, the trace
of requests issued so far, and the current `folderSizeData` cache. -/
structure RunState where
  env : Env
  trace : List Call
  cache : Option Meas
deriving DecidableEq, Repr

/-- Issue one HTTP request of kind `c`: consume the next script entry and
record the request in the trace.  The returned `Option WireResp` is `none`
when the request throws a transport-level exception. -/
def doRequest (c : Call) (s : RunState) : Option WireResp × RunState :=
  match s.env with
  | [] => (none, { s with trace := s.trace ++ [c] })
  | r :: rest => (r, { s with env := rest, trace := s.trace ++ [c] })

/-- Exceptions a run step can raise. `transport` is an axios/network
error; `missingApiPath` is the TypeError of line 178 when the discovery
response lacks the route entries; `sessionIdUndefined` is the
`Error('Session ID is undefined')` thrown by `loginDsm` at line 61 (the
spec's ProtocolError for a well-formed response missing the session
identifier); `missingStartData` is the TypeError of line 198. -/
inductive Exc where
  | transport
  | missingApiPath
  | sessionIdUndefined
  | missingStartData
deriving DecidableEq, Repr

/-- Result of the body of `calculateFolderSize`: a normal return, an
exception escaping to the top-level catch, or fuel exhaustion (a model
artifact standing for a run still in progress). -/
inductive BodyRes where
  | ok
  | exn (e : Exc)
  | fuelOut
deriving DecidableEq, Repr

/-- Models `loginDsm` (lines 45-64) applied to the outcome of its HTTP
request: a transport failure propagates, and a response whose body lacks a
(truthy) `data.sid` makes `loginDsm` throw (lines 59-62); otherwise the
response body is returned. -/
def loginDsm (r : Option WireResp) : Except Exc WireResp :=
  match r with
  | none => Except.error Exc.transport
  | some l => if l.sid then Except.ok l else Except.error Exc.sessionIdUndefined

/-- The assignment to `folderSizeData` at lines 212-219: the measurement
built from the polled `total_size`, with
`used_percentage = totalSizeBytes / MAX_SIZE_BYTES * 100` (line 213). -/
def publish (sd : StatusData) (s : RunState) : RunState :=
  { s with
      cache := some ⟨sd.total_size, MAX_SIZE_BYTES, sd.total_size / MAX_SIZE_BYTES * 100⟩ }

mutual

/-- Models the body of the outer `try` of `calculateFolderSize`
(lines 170-249): route discovery, login, start, then the polling loop.
Early `return` statements yield `BodyRes.ok`; uncaught throws yield
`BodyRes.exn`. -/
def calcBody : Nat → RunState → RunState × BodyRes
  | 0, s => (s, BodyRes.fuelOut)
  | Nat.succ n, s =>
    match doRequest Call.query s with
    | (none, s1) => (s1, BodyRes.exn Exc.transport)
    | (some apiInfo, s1) =>
      if apiInfo.success = false then (s1, BodyRes.ok)
      else if apiInfo.apiPaths = false then (s1, BodyRes.exn Exc.missingApiPath)
      else
        match doRequest Call.login s1 with
        | (rl, s2) =>
          match loginDsm rl with
          | Except.error e => (s2, BodyRes.exn e)
          | Except.ok loginInfo =>
            if loginInfo.success = false then (s2, BodyRes.ok)
            else
              match doRequest Call.start s2 with
              | (none, s3) => (s3, BodyRes.exn Exc.transport)
              | (some startInfo, s3) =>
                if startInfo.success = false then (s3, BodyRes.ok)
                else if startInfo.startHasData = false then
                  (s3, BodyRes.exn Exc.missingStartData)
                else pollLoop n s3

/-- Models the `while (true)` polling loop (lines 201-247) together with
its inner `try/catch` (lines 203-245): a transport exception or TypeError
inside the loop is caught and turns into a normal return; a finished poll
publishes the measurement, then stops the task and logs out (a throw in
either is caught by the same inner catch, and in every case the run then
ends with no further requests); an in-progress poll sleeps and re-polls;
a `success:false` poll stops the task, logs out, and restarts the whole
run (`return calculateFolderSize()`, line 238), whose own top-level catch
(lines 250-252) converts any exception of the restarted run. -/
def pollLoop : Nat → RunState → RunState × BodyRes
  | 0, s => (s, BodyRes.fuelOut)
  | Nat.succ n, s =>
    match doRequest Call.status s with
    | (none, s1) => (s1, BodyRes.ok)
    | (some sizeInfo, s1) =>
      if sizeInfo.success = true then
        match sizeInfo.statusData with
        | none => (s1, BodyRes.ok)
        | some sd =>
          if sd.finished = true then
            if sizeInfo.success = false then (s1, BodyRes.ok)
            else
              match doRequest Call.stop (publish sd s1) with
              | (none, s2) => (s2, BodyRes.ok)
              | (some _, s2) =>
                match doRequest Call.logout s2 with
                | (_, s3) => (s3, BodyRes.ok)
          else pollLoop n s1
      else
        match doRequest Call.stop s1 with
        | (none, s2) => (s2, BodyRes.ok)
        | (some _, s2) =>
          match doRequest Call.logout s2 with
          | (none, s3) => (s3, BodyRes.ok)
          | (some _, s3) =>
            match calcBody n s3 with
            | (s4, r4) =>
              (s4, match r4 with | BodyRes.exn _ => BodyRes.ok | x => x)

end

/-- Models `calculateFolderSize` (lines 163-253): the try body followed by
the top-level catch, which logs any exception and returns normally. -/
def calculateFolderSize (fuel : Nat) (s : RunState) : RunState × BodyRes :=
  let b := calcBody fuel s
  (b.1, match b.2 with | BodyRes.exn _ => BodyRes.ok | x => x)

/-- Rendering of the cache as the JSON object the endpoint serves: the
empty cache renders as the empty object, a measurement as an object with
exactly the three fields of lines 215-219. -/
def folderSizeJson : Option Meas → List (String × ℚ)
  | none => []
  | some m =>
      [("current_size_bytes", m.current_size_bytes),
       ("max_size_bytes", m.max_size_bytes),
       ("used_percentage", m.used_percentage)]

/-- An HTTP response of the local server: a JSON body or an error status. -/
inductive HttpResp where
  | json (fields : List (String × ℚ))
  | httpError (code : Nat)
deriving DecidableEq, Repr

/-- Models the `GET /api/folder-size` handler (lines 261-263):
`res.json(folderSizeData)`, unconditionally. -/
def getFolderSizeEndpoint (cache : Option Meas) : HttpResp :=
  HttpResp.json (folderSizeJson cache)

/-- Relation between the cache before and after a run: the run either
leaves the cache untouched, or it holds a measurement of the published
shape of lines 212-219 — `max_size_bytes` is the capacity constant and
`used_percentage` is exactly `total / MAX_SIZE_BYTES * 100`, unclamped. -/
def cacheEvolves (a b : Option Meas) : Prop :=
  b = a ∨ ∃ t : ℚ, b = some ⟨t, MAX_SIZE_BYTES, t / MAX_SIZE_BYTES * 100⟩

theorem doRequest_nil (c : Call) (tr : List Call) (ca : Option Meas) :
    doRequest c ⟨[], tr, ca⟩ = (none, ⟨[], tr ++ [c], ca⟩) := rfl

theorem doRequest_cons (c : Call) (r : Option WireResp) (rest : Env) (tr : List Call)
    (ca : Option Meas) : doRequest c ⟨r :: rest, tr, ca⟩ = (r, ⟨rest, tr ++ [c], ca⟩) := rfl

theorem doRequest_cache (c : Call) (s : RunState) : ((doRequest c s).2).cache = s.cache := by
  obtain ⟨env, tr, ca⟩ := s
  cases env <;> rfl

theorem cache_of_doRequest {c : Call} {s s1 : RunState} {r : Option WireResp}
    (h : doRequest c s = (r, s1)) : s1.cache = s.cache := by
  have hc := doRequest_cache c s
  rw [h] at hc
  exact hc

theorem cacheEvolves_of_eq {a b : Option Meas} (h : b = a) : cacheEvolves a b := Or.inl h

theorem cacheEvolves_trans_eq {a b c : Option Meas} (hab : b = a) (hbc : cacheEvolves b c) :
    cacheEvolves a c := hab ▸ hbc

/-- C3: whatever the appliance does (any oracle script, any starting
state), `calculateFolderSize` never propagates an exception to its caller:
the top-level catch converts every exception raised during discovery,
authentication, start, polling or finalization into a normal return, so a
failed measurement cycle cannot crash the hosting process. -/
theorem C3_run_never_propagates_exception (fuel : Nat) (s : RunState) (e : Exc) :
    (calculateFolderSize fuel s).2 ≠ BodyRes.exn e := by
  cases h : (calcBody fuel s).2 <;> simp [calculateFolderSize, h]

/-- C8: the endpoint handler serves the empty JSON object (not an error)
for the initial, never-written cache, always answers with a JSON body, and
once a measurement is cached it serves exactly the three fields
`current_size_bytes`, `max_size_bytes`, `used_percentage`. -/
theorem C8_endpoint_payload :
    getFolderSizeEndpoint initialFolderSizeData = HttpResp.json [] ∧
    (∀ c : Option Meas, ∃ fields, getFolderSizeEndpoint c = HttpResp.json fields) ∧
    ∀ m : Meas, getFolderSizeEndpoint (some m) = HttpResp.json
      [("current_size_bytes", m.current_size_bytes),
       ("max_size_bytes", m.max_size_bytes),
       ("used_percentage", m.used_percentage)] :=
  ⟨rfl, fun c => ⟨folderSizeJson c, rfl⟩, fun _ => rfl⟩

/-- C6: a well-formed authentication response without the session
identifier field makes `loginDsm` throw its missing-session-id error (the
spec's ProtocolError), and the run aborts — converted to a normal return
by the top-level catch — before any start or status request is issued. -/
theorem C6_missing_sid_aborts_run (fuel : Nat) (q l : WireResp) (rest : Env)
    (tr : List Call) (ca : Option Meas)
    (hq : q.success = true) (hpaths : q.apiPaths = true) (hsid : l.sid = false) :
    loginDsm (some l) = Except.error Exc.sessionIdUndefined ∧
    calcBody (fuel + 1) ⟨some q :: some l :: rest, tr, ca⟩ =
      (⟨rest, tr ++ [Call.query, Call.login], ca⟩, BodyRes.exn Exc.sessionIdUndefined) ∧
    calculateFolderSize (fuel + 1) ⟨some q :: some l :: rest, tr, ca⟩ =
      (⟨rest, tr ++ [Call.query, Call.login], ca⟩, BodyRes.ok) := by
  refine ⟨by simp [loginDsm, hsid], ?_, ?_⟩ <;>
    simp [calculateFolderSize, calcBody, doRequest, loginDsm, hq, hpaths, hsid]

/-- C6 witness: concrete instance of the missing-session-id abort. -/
theorem C6_missing_sid_aborts_run_witness :
    loginDsm (some { sid := false }) = Except.error Exc.sessionIdUndefined ∧
    calcBody 1 ⟨[some {}, some { sid := false }], [], none⟩ =
      (⟨[], [Call.query, Call.login], none⟩, BodyRes.exn Exc.sessionIdUndefined) ∧
    calculateFolderSize 1 ⟨[some {}, some { sid := false }], [], none⟩ =
      (⟨[], [Call.query, Call.login], none⟩, BodyRes.ok) := by
  have h := C6_missing_sid_aborts_run 0 {} { sid := false } [] [] none rfl rfl rfl
  simpa using h

/-- C5: if opening the session fails — the discovery query answers
`success:false` (with or without route entries in its body), the login
request throws, the login response lacks the session id, or the login
answers `success:false` — then no start, status, stop or logout request
is ever issued (the trace gains at most the query and login requests)
and the cache is unchanged. -/
theorem C5_open_failure_no_further_calls (fuel : Nat) (q : WireResp) (e2 : Option WireResp)
    (rest : Env) (tr : List Call) (ca : Option Meas)
    (hfail : q.success = false ∨ (q.success = true ∧
      (e2 = none ∨ ∃ l, e2 = some l ∧ (l.sid = false ∨ l.success = false)))) :
    (calculateFolderSize (fuel + 1) ⟨some q :: e2 :: rest, tr, ca⟩).1.cache = ca ∧
    ((calculateFolderSize (fuel + 1) ⟨some q :: e2 :: rest, tr, ca⟩).1.trace =
        tr ++ [Call.query] ∨
      (calculateFolderSize (fuel + 1) ⟨some q :: e2 :: rest, tr, ca⟩).1.trace =
        tr ++ [Call.query, Call.login]) ∧
    (calculateFolderSize (fuel + 1) ⟨some q :: e2 :: rest, tr, ca⟩).2 = BodyRes.ok := by
  rcases hfail with hq | ⟨hq, hl⟩
  · simp [calculateFolderSize, calcBody, doRequest, hq]
  · cases hp : q.apiPaths
    · simp [calculateFolderSize, calcBody, doRequest, hq, hp]
    · rcases hl with rfl | ⟨l, rfl, hls⟩
      · simp [calculateFolderSize, calcBody, doRequest, loginDsm, hq, hp]
      · rcases hls with hsid | hsuc
        · simp [calculateFolderSize, calcBody, doRequest, loginDsm, hq, hp, hsid]
        · cases hs : l.sid
          · simp [calculateFolderSize, calcBody, doRequest, loginDsm, hq, hp, hs]
          · simp [calculateFolderSize, calcBody, doRequest, loginDsm, hq, hp, hs, hsuc]

/-- C5 witness: concrete login-rejected instance. -/
theorem C5_open_failure_no_further_calls_witness :
    (calculateFolderSize 1
        ⟨some {} :: some { success := false } :: [], [], none⟩).1.cache = none ∧
    ((calculateFolderSize 1
        ⟨some {} :: some { success := false } :: [], [], none⟩).1.trace = [] ++ [Call.query] ∨
      (calculateFolderSize 1
        ⟨some {} :: some { success := false } :: [], [], none⟩).1.trace =
          [] ++ [Call.query, Call.login]) ∧
    (calculateFolderSize 1 ⟨some {} :: some { success := false } :: [], [], none⟩).2 =
      BodyRes.ok :=
  C5_open_failure_no_further_calls 0 {} (some { success := false }) [] [] none
    (Or.inr ⟨rfl, Or.inr ⟨{ success := false }, rfl, Or.inr rfl⟩⟩)

/-- C7: once a poll reports `finished:true`, the measurement is published
before the stop and logout requests, and whatever the logout outcome —
any response, or a thrown transport error (`lo` arbitrary) — the run ends
normally with the new measurement cached: the final result does not
depend on `lo`. -/
theorem C7_logout_failure_never_alters_outcome (fuel : Nat) (q l st f stopR : WireResp)
    (lo : Option WireResp) (rest : Env) (tr : List Call) (ca : Option Meas) (sd : StatusData)
    (hq : q.success = true) (hpaths : q.apiPaths = true)
    (hlsid : l.sid = true) (hl : l.success = true)
    (hst : st.success = true) (hstd : st.startHasData = true)
    (hf : f.success = true) (hfd : f.statusData = some sd) (hfin : sd.finished = true) :
    calculateFolderSize (fuel + 2)
        ⟨some q :: some l :: some st :: some f :: some stopR :: lo :: rest, tr, ca⟩ =
      (⟨rest,
        tr ++ [Call.query, Call.login, Call.start, Call.status, Call.stop, Call.logout],
        some ⟨sd.total_size, MAX_SIZE_BYTES, sd.total_size / MAX_SIZE_BYTES * 100⟩⟩,
       BodyRes.ok) := by
  simp [calculateFolderSize, calcBody, pollLoop, publish, doRequest, loginDsm,
        hq, hpaths, hlsid, hl, hst, hstd, hf, hfd, hfin]

/-- C7 witness: concrete finished run whose logout throws. -/
theorem C7_logout_failure_never_alters_outcome_witness :
    calculateFolderSize 2
        ⟨some {} :: some {} :: some {} ::
          some { statusData := some ⟨true, 42⟩ } :: some {} :: none :: [], [], none⟩ =
      (⟨[],
        [] ++ [Call.query, Call.login, Call.start, Call.status, Call.stop, Call.logout],
        some ⟨42, MAX_SIZE_BYTES, 42 / MAX_SIZE_BYTES * 100⟩⟩,
       BodyRes.ok) :=
  C7_logout_failure_never_alters_outcome 0 {} {} {} { statusData := some ⟨true, 42⟩ } {}
    none [] [] none ⟨true, 42⟩ rfl rfl rfl rfl rfl rfl rfl rfl rfl

/-- C9: a `success:false` status poll issues the stop request, then the
logout request, and then restarts the whole run from the top (route
discovery and authentication): the run is equal to a fresh
`calculateFolderSize` on the remaining script, with the stop and logout
requests recorded in that order just before it. -/
theorem C9_poll_failure_stop_logout_then_restart (fuel : Nat) (q l st f stopR loR : WireResp)
    (rest : Env) (tr : List Call) (ca : Option Meas)
    (hq : q.success = true) (hpaths : q.apiPaths = true)
    (hlsid : l.sid = true) (hl : l.success = true)
    (hst : st.success = true) (hstd : st.startHasData = true)
    (hf : f.success = false) :
    calculateFolderSize (fuel + 2)
        ⟨some q :: some l :: some st :: some f :: some stopR :: some loR :: rest, tr, ca⟩ =
      calculateFolderSize fuel
        ⟨rest,
         tr ++ [Call.query, Call.login, Call.start, Call.status, Call.stop, Call.logout],
         ca⟩ := by
  simp only [calculateFolderSize, calcBody, pollLoop, doRequest, loginDsm]
  simp [hq, hpaths, hlsid, hl, hst, hstd, hf]
  cases h : (calcBody fuel
      ⟨rest,
       tr ++ [Call.query, Call.login, Call.start, Call.status, Call.stop, Call.logout],
       ca⟩).2 <;>
    simp [h]

/-- C9 witness: concrete failed poll, with the restarted run aborting on
an empty script. -/
theorem C9_poll_failure_stop_logout_then_restart_witness :
    calculateFolderSize 2
        ⟨some {} :: some {} :: some {} ::
          some { success := false } :: some {} :: some {} :: [], [], none⟩ =
      calculateFolderSize 0
        ⟨[],
         [] ++ [Call.query, Call.login, Call.start, Call.status, Call.stop, Call.logout],
         none⟩ :=
  C9_poll_failure_stop_logout_then_restart 0 {} {} {} { success := false } {} {} [] [] none
    rfl rfl rfl rfl rfl rfl rfl

/-- C10: on the recovery path (a `success:false` poll), if the stop
request throws, or the logout request throws, the inner catch ends the
run at once: the cache is unchanged, the remaining script is untouched
(no restart is attempted), and the run returns normally. -/
theorem C10_cleanup_throw_abandons_restart (fuel : Nat) (q l st f : WireResp)
    (rest : Env) (tr : List Call) (ca : Option Meas)
    (hq : q.success = true) (hpaths : q.apiPaths = true)
    (hlsid : l.sid = true) (hl : l.success = true)
    (hst : st.success = true) (hstd : st.startHasData = true)
    (hf : f.success = false) :
    calculateFolderSize (fuel + 2)
        ⟨some q :: some l :: some st :: some f :: none :: rest, tr, ca⟩ =
      (⟨rest, tr ++ [Call.query, Call.login, Call.start, Call.status, Call.stop], ca⟩,
       BodyRes.ok) ∧
    ∀ stopR : WireResp,
      calculateFolderSize (fuel + 2)
          ⟨some q :: some l :: some st :: some f :: some stopR :: none :: rest, tr, ca⟩ =
        (⟨rest,
          tr ++ [Call.query, Call.login, Call.start, Call.status, Call.stop, Call.logout],
          ca⟩,
         BodyRes.ok) := by
  constructor
  · simp [calculateFolderSize, calcBody, pollLoop, doRequest, loginDsm,
          hq, hpaths, hlsid, hl, hst, hstd, hf]
  · intro stopR
    simp [calculateFolderSize, calcBody, pollLoop, doRequest, loginDsm,
          hq, hpaths, hlsid, hl, hst, hstd, hf]

/-- C10 witness: concrete failed poll whose stop request throws, and one
whose logout request throws. -/
theorem C10_cleanup_throw_abandons_restart_witness :
    (calculateFolderSize 2
        ⟨some {} :: some {} :: some {} :: some { success := false } :: none :: [], [], none⟩ =
      (⟨[], [] ++ [Call.query, Call.login, Call.start, Call.status, Call.stop], none⟩,
       BodyRes.ok)) ∧
    calculateFolderSize 2
        ⟨some {} :: some {} :: some {} :: some { success := false } :: some {} ::
          none :: [], [], none⟩ =
      (⟨[],
        [] ++ [Call.query, Call.login, Call.start, Call.status, Call.stop, Call.logout],
        none⟩,
       BodyRes.ok) :=
  ⟨(C10_cleanup_throw_abandons_restart 0 {} {} {} { success := false } [] [] none
      rfl rfl rfl rfl rfl rfl rfl).1,
   (C10_cleanup_throw_abandons_restart 0 {} {} {} { success := false } [] [] none
      rfl rfl rfl rfl rfl rfl rfl).2 {}⟩

/-- Helper for C2: from the Polling state, any number of in-progress
polls followed by a status request that throws ends the run normally via
the inner catch — the cache is untouched, the remaining script is
unconsumed, and only status requests were issued. -/
theorem pollLoop_inprogress_then_transport (ps : List WireResp) (fuel : Nat)
    (rest : Env) (ca : Option Meas) (tr : List Call)
    (hps : ∀ w ∈ ps, w.success = true ∧ ∃ sd, w.statusData = some sd ∧ sd.finished = false) :
    pollLoop (fuel + ps.length + 1) ⟨ps.map some ++ none :: rest, tr, ca⟩ =
      (⟨rest, tr ++ List.replicate (ps.length + 1) Call.status, ca⟩, BodyRes.ok) := by
  revert hps
  induction ps generalizing tr with
  | nil =>
    intro _
    simp [pollLoop, doRequest]
  | cons w ps ih =>
    intro hps
    obtain ⟨hw, sd, hsd, hfin⟩ := hps w (List.mem_cons_self w ps)
    have harith : fuel + (w :: ps).length + 1 = fuel + ps.length + 1 + 1 := by
      simp only [List.length_cons]
      omega
    rw [harith]
    have hstep :
        pollLoop (fuel + ps.length + 1 + 1) ⟨(w :: ps).map some ++ none :: rest, tr, ca⟩ =
        pollLoop (fuel + ps.length + 1) ⟨ps.map some ++ none :: rest, tr ++ [Call.status], ca⟩ := by
      simp [pollLoop, doRequest, hw, hsd, hfin]
    rw [hstep, ih (tr ++ [Call.status]) (fun v hv => hps v (List.mem_cons_of_mem _ hv))]
    simp [List.replicate_succ, List.append_assoc]

/-- C2: a transport-level exception while requesting task status — after
any number of in-progress polls — terminates the run immediately: the
cache is unchanged, no stop and no logout request is attempted after the
exception, and the run returns normally. -/
theorem C2_poll_transport_aborts_without_cleanup (fuel : Nat) (q l st : WireResp)
    (ps : List WireResp) (rest : Env) (tr : List Call) (ca : Option Meas)
    (hq : q.success = true) (hpaths : q.apiPaths = true)
    (hlsid : l.sid = true) (hl : l.success = true)
    (hst : st.success = true) (hstd : st.startHasData = true)
    (hps : ∀ w ∈ ps, w.success = true ∧ ∃ sd, w.statusData = some sd ∧ sd.finished = false) :
    calculateFolderSize (fuel + ps.length + 2)
        ⟨some q :: some l :: some st :: (ps.map some ++ none :: rest), tr, ca⟩ =
      (⟨rest,
        tr ++ Call.query :: Call.login :: Call.start ::
          List.replicate (ps.length + 1) Call.status,
        ca⟩,
       BodyRes.ok) := by
  have hpoll := pollLoop_inprogress_then_transport ps fuel rest ca
    (tr ++ [Call.query, Call.login, Call.start]) hps
  simp [calculateFolderSize, calcBody, doRequest, loginDsm,
        hq, hpaths, hlsid, hl, hst, hstd, hpoll, List.append_assoc]

/-- C2 witness: one in-progress poll, then the status request throws. -/
theorem C2_poll_transport_aborts_without_cleanup_witness :
    calculateFolderSize 4
        ⟨some {} :: some {} :: some {} ::
          ([({ statusData := some ⟨false, 0⟩ } : WireResp)].map some ++
            none :: [some ({} : WireResp)]), [], none⟩ =
      (⟨[some ({} : WireResp)],
        [] ++ Call.query :: Call.login :: Call.start :: List.replicate 2 Call.status,
        none⟩,
       BodyRes.ok) :=
  C2_poll_transport_aborts_without_cleanup 1 {} {} {}
    [{ statusData := some ⟨false, 0⟩ }] [some {}] [] none
    rfl rfl rfl rfl rfl rfl
    (by intro w hw
        simp only [List.mem_singleton] at hw
        subst hw
        exact ⟨rfl, ⟨false, 0⟩, rfl, rfl⟩)

/-- C1: exhibit of the unbounded self-restart at line 238.  Within one
external trigger, two consecutive `success:false` polls (each followed by
a clean stop and logout) produce a trace with three route-discovery
requests: after the second consecutive application-level polling failure
the run restarts again instead of terminating, so the restart count per
invocation is not capped at one. -/
theorem C1_second_failure_restarts_again :
    (calculateFolderSize 10
        ⟨[some {}, some {}, some {}, some { success := false }, some {}, some {},
          some {}, some {}, some {}, some { success := false }, some {}, some {}],
         [], none⟩).1.trace =
      [Call.query, Call.login, Call.start, Call.status, Call.stop, Call.logout,
       Call.query, Call.login, Call.start, Call.status, Call.stop, Call.logout,
       Call.query] ∧
    ((calculateFolderSize 10
        ⟨[some {}, some {}, some {}, some { success := false }, some {}, some {},
          some {}, some {}, some {}, some { success := false }, some {}, some {}],
         [], none⟩).1.trace.count Call.query = 3) := by
  constructor <;> rfl

/-- Helper for C4: the only cache write a run ever performs is the
publication of lines 212-219, so across `calcBody` and `pollLoop` the
cache either stays what it was or holds a measurement whose
`max_size_bytes` is `MAX_SIZE_BYTES` and whose `used_percentage` is
exactly `total / MAX_SIZE_BYTES * 100`. -/
theorem cache_write_shape (fuel : Nat) :
    (∀ s : RunState, cacheEvolves s.cache (calcBody fuel s).1.cache) ∧
    (∀ s : RunState, cacheEvolves s.cache (pollLoop fuel s).1.cache) := by
  induction fuel with
  | zero => exact ⟨fun _ => Or.inl rfl, fun _ => Or.inl rfl⟩
  | succ n ih =>
    obtain ⟨ihc, ihp⟩ := ih
    constructor
    · intro s
      simp only [calcBody]
      rcases h1 : doRequest Call.query s with ⟨r1, s1⟩
      have hc1 : s1.cache = s.cache := cache_of_doRequest h1
      rcases r1 with _ | apiInfo
      · exact Or.inl hc1
      · dsimp only
        cases hqs : apiInfo.success
        · exact Or.inl hc1
        · cases hqp : apiInfo.apiPaths
          · exact Or.inl hc1
          · rcases h2 : doRequest Call.login s1 with ⟨r2, s2⟩
            have hc2 : s2.cache = s.cache := (cache_of_doRequest h2).trans hc1
            dsimp only
            rcases hld : loginDsm r2 with e | li
            · exact Or.inl hc2
            · dsimp only
              cases hls : li.success
              · exact Or.inl hc2
              · rcases h3 : doRequest Call.start s2 with ⟨r3, s3⟩
                have hc3 : s3.cache = s.cache := (cache_of_doRequest h3).trans hc2
                rcases r3 with _ | startInfo
                · exact Or.inl hc3
                · dsimp only
                  cases hss : startInfo.success
                  · exact Or.inl hc3
                  · cases hsd : startInfo.startHasData
                    · exact Or.inl hc3
                    · exact cacheEvolves_trans_eq hc3 (ihp s3)
    · intro s
      simp only [pollLoop]
      rcases h1 : doRequest Call.status s with ⟨r1, s1⟩
      have hc1 : s1.cache = s.cache := cache_of_doRequest h1
      rcases r1 with _ | sizeInfo
      · exact Or.inl hc1
      · dsimp only
        cases hss : sizeInfo.success
        · rcases h2 : doRequest Call.stop s1 with ⟨r2, s2⟩
          have hc2 : s2.cache = s.cache := (cache_of_doRequest h2).trans hc1
          rcases r2 with _ | stopInfo
          · exact Or.inl hc2
          · dsimp only
            rcases h3 : doRequest Call.logout s2 with ⟨r3, s3⟩
            have hc3 : s3.cache = s.cache := (cache_of_doRequest h3).trans hc2
            rcases r3 with _ | loInfo
            · exact Or.inl hc3
            · dsimp only
              rcases h4 : calcBody n s3 with ⟨s4, r4⟩
              have h5 := ihc s3
              rw [h4] at h5
              exact cacheEvolves_trans_eq hc3 h5
        · rcases hsd : sizeInfo.statusData with _ | sd
          · exact Or.inl hc1
          · dsimp only
            cases hfin : sd.finished
            · exact cacheEvolves_trans_eq hc1 (ihp s1)
            · rcases h2 : doRequest Call.stop (publish sd s1) with ⟨r2, s2⟩
              have hc2 : s2.cache = (publish sd s1).cache := cache_of_doRequest h2
              rcases r2 with _ | stopInfo
              · exact Or.inr ⟨sd.total_size, hc2⟩
              · dsimp only
                rcases h3 : doRequest Call.logout s2 with ⟨r3, s3⟩
                have hc3 : s3.cache = (publish sd s1).cache :=
                  (cache_of_doRequest h3).trans hc2
                exact Or.inr ⟨sd.total_size, hc3⟩

/-- C4: a run never writes anything to the cache except measurements
satisfying `used_percentage = current_size_bytes / MAX_SIZE_BYTES * 100`
exactly, with `max_size_bytes` the constant `6 * 1024 ^ 4`, and the ratio
is not clamped to [0, 100].  Concretely, scenario 1 — start succeeds, one
in-progress poll, then `finished:true` with `total_size = 10 ^ 12` —
publishes `used_percentage = 10 ^ 12 / MAX_SIZE_BYTES * 100`, which is
within 0.01 of 15.16; and a finished poll with
`total_size = 2 * MAX_SIZE_BYTES` publishes 200, above 100, as-is. -/
theorem C4_used_percentage_unclamped_ratio :
    (∀ (fuel : Nat) (s : RunState),
      cacheEvolves s.cache (calculateFolderSize fuel s).1.cache) ∧
    MAX_SIZE_BYTES = 6 * 1024 ^ 4 ∧
    (calculateFolderSize 3
        ⟨[some {}, some {}, some {}, some { statusData := some ⟨false, 0⟩ },
          some { statusData := some ⟨true, 10 ^ 12⟩ }, some {}, some {}],
         [], none⟩).1.cache =
      some ⟨10 ^ 12, MAX_SIZE_BYTES, 10 ^ 12 / MAX_SIZE_BYTES * 100⟩ ∧
    |(10 ^ 12 / MAX_SIZE_BYTES * 100 : ℚ) - 1516 / 100| < 1 / 100 ∧
    (calculateFolderSize 2
        ⟨[some {}, some {}, some {},
          some { statusData := some ⟨true, 2 * MAX_SIZE_BYTES⟩ }, some {}, some {}],
         [], none⟩).1.cache =
      some ⟨2 * MAX_SIZE_BYTES, MAX_SIZE_BYTES, 200⟩ := by
  refine ⟨fun fuel s => (cache_write_shape fuel).1 s, rfl, rfl, ?_, ?_⟩
  · rw [abs_sub_lt_iff]
    constructor <;> norm_num [MAX_SIZE_BYTES, MAX_SIZE_TB]
  · have hrun : (calculateFolderSize 2
        ⟨[some {}, some {}, some {},
          some { statusData := some ⟨true, 2 * MAX_SIZE_BYTES⟩ }, some {}, some {}],
         [], none⟩).1.cache =
      some ⟨2 * MAX_SIZE_BYTES, MAX_SIZE_BYTES,
            2 * MAX_SIZE_BYTES / MAX_SIZE_BYTES * 100⟩ := rfl
    have hval : (2 * MAX_SIZE_BYTES / MAX_SIZE_BYTES * 100 : ℚ) = 200 := by
      norm_num [MAX_SIZE_BYTES, MAX_SIZE_TB]
    rw [hrun, hval]

end MomsStorage
